import Mathlib

/-!
# Verification of the factorio blueprint exchange-string decoder

Shallow embedding of the `factorio-bp-rs` / `factorio-bp-cli` sources:
the JSON wire model, the serde-derived parse/serialize mappings of
`src/factorio-bp-rs/src/blueprint.rs`, the envelope decoder of
`src/factorio-bp-cli/src/main.rs` (`decode_bp`), and the version
pack/unpack transform. Machine integers are modelled as `Nat` with
explicit bounds; JSON numbers are modelled as rationals (the structural
claims verified here never compute with them); fallible code returns
`Except`.
-/

namespace FactorioBp

/-- A JSON value. Objects are modelled as ordered association lists
(serde's map visitor sees entries in wire order; lookups take the first
match). Numbers are modelled as rationals. -/
inductive Json where
  | null : Json
  | bool (b : Bool) : Json
  | num (q : Rat) : Json
  | str (s : String) : Json
  | arr (elems : List Json) : Json
  | obj (fields : List (String × Json)) : Json

/-- First-match lookup in a JSON object's field list. -/
def jlookup : List (String × Json) → String → Option Json
  | [], _ => none
  | (k, v) :: rest, key => if k = key then some v else jlookup rest key

/-- Lookup of a key directly on a `Json.obj` value. -/
def Json.objLookup : Json → String → Option Json
  | .obj kvs, key => jlookup kvs key
  | _, _ => none

/-- Error taxonomy of the pipeline (spec §7): `formatError` for a
malformed envelope (invalid base64, zlib or UTF-8 failure), `schemaError`
for JSON that violates the typed schema (serde errors), `dataError` for
JSON that is neither a blueprint nor a blueprint book, and `panicked`
for a Rust `unwrap` panic (not part of the spec taxonomy, but present in
the code path for empty input). -/
inductive DecodeError where
  | formatError (msg : String) : DecodeError
  | schemaError (msg : String) : DecodeError
  | dataError (msg : String) : DecodeError
  | panicked (msg : String) : DecodeError

/-- Result type of every fallible stage. -/
abbrev DResult (α : Type) := Except DecodeError α

/-! ## Primitive wire readers (serde_json semantics) -/

/-- Read an unsigned integer strictly below `bound` (serde_json rejects
fractional values, negatives and out-of-range values for the unsigned
integer types). -/
def asBoundedNat (bound : Nat) : Json → DResult Nat
  | .num q =>
      if q.den = 1 ∧ 0 ≤ q.num ∧ q.num < (bound : Int) then .ok q.num.toNat
      else .error (.schemaError "invalid value: not an in-range unsigned integer")
  | _ => .error (.schemaError "invalid type: expected an unsigned integer")

/-- Read a `u64` / `usize` (the target is a 64-bit platform). -/
def asU64 : Json → DResult Nat := asBoundedNat (2 ^ 64)

/-- Read a `u32` (`ItemCountType`). -/
def asU32 : Json → DResult Nat := asBoundedNat (2 ^ 32)

/-- Read a `u16` (`ItemStackIndex`). -/
def asU16 : Json → DResult Nat := asBoundedNat (2 ^ 16)

/-- Read a `u8` (`GraphicsVariation`, `override_stack_size`). -/
def asU8 : Json → DResult Nat := asBoundedNat (2 ^ 8)

/-- Read a `NonZeroUsize`: a `usize` that additionally must be nonzero. -/
def asNonZeroUsize (j : Json) : DResult Nat := do
  let n ← asU64 j
  if n = 0 then .error (.schemaError "invalid value: 0, expected a nonzero usize")
  else .ok n

/-- Read an `f64` field; the numeric value is carried as a rational. -/
def asF64 : Json → DResult Rat
  | .num q => .ok q
  | _ => .error (.schemaError "invalid type: expected a float")

/-- Read a `String`. -/
def asStr : Json → DResult String
  | .str s => .ok s
  | _ => .error (.schemaError "invalid type: expected a string")

/-- Read a `bool`. -/
def asBool : Json → DResult Bool
  | .bool b => .ok b
  | _ => .error (.schemaError "invalid type: expected a boolean")

/-- Read a `Vec<T>` from a JSON array. -/
def asVec (f : Json → DResult α) : Json → DResult (List α)
  | .arr xs => xs.mapM f
  | _ => .error (.schemaError "invalid type: expected a sequence")

/-- A required struct field (serde derive: a field that is neither an
`Option` nor `#[serde(default)]` must be present). -/
def parseField (kvs : List (String × Json)) (key : String)
    (f : Json → DResult α) : DResult α :=
  match jlookup kvs key with
  | some v => f v
  | none => .error (.schemaError s!"missing field {key}")

/-- An `Option<T>` struct field (serde derive: absent or `null` both
deserialize to `None`). -/
def parseOptField (kvs : List (String × Json)) (key : String)
    (f : Json → DResult α) : DResult (Option α) :=
  match jlookup kvs key with
  | some .null => .ok none
  | some v => some <$> f v
  | none => .ok none

/-! ## Version transform

`blueprint.rs` lines 36–63: `Version` is four `u16` components and is
deserialized `#[serde(from = "u64")]` through `From<u64> for Version`.
-/

/-- A Factorio game version: four 16-bit components. -/
structure Version where
  major : Nat
  minor : Nat
  patch : Nat
  developer : Nat

/-- `u64::to_be_bytes`: the eight bytes of `v`, most significant first. -/
def u64ToBeBytes (v : Nat) : List Nat :=
  [v / 2 ^ 56 % 256, v / 2 ^ 48 % 256, v / 2 ^ 40 % 256, v / 2 ^ 32 % 256,
   v / 2 ^ 24 % 256, v / 2 ^ 16 % 256, v / 2 ^ 8 % 256, v % 256]

/-- `u16::from_le_bytes([x, y])`: `x` is the low byte, `y` the high byte. -/
def u16FromLeBytes (x y : Nat) : Nat := x + 256 * y

/-- `impl From<u64> for Version` (`blueprint.rs` lines 46–63): take the
big-endian bytes of the wire integer and read consecutive pairs as
little-endian `u16`s. -/
def Version.fromU64 (value : Nat) : Version :=
  let bytes := u64ToBeBytes value
  { major := u16FromLeBytes (bytes.getD 0 0) (bytes.getD 1 0)
    minor := u16FromLeBytes (bytes.getD 2 0) (bytes.getD 3 0)
    patch := u16FromLeBytes (bytes.getD 4 0) (bytes.getD 5 0)
    developer := u16FromLeBytes (bytes.getD 6 0) (bytes.getD 7 0) }

/-- Spec §4.3, decode side: byte `i` of the wire integer `V` in
big-endian order (`b0` is the most significant byte). -/
def beByte (v i : Nat) : Nat := v / 2 ^ (8 * (7 - i)) % 256

/-- Spec §4.3: `le_u16(x,y)` interprets the pair `(x,y)` as a
little-endian 16-bit integer. -/
def leU16 (x y : Nat) : Nat := x + 256 * y

/-- Modelled from the spec: the packing direction of §4.3 is absent from
`src` (`Version` implements `From<u64>` but no conversion back to `u64`).
Per the spec's words: reassemble the bytes `b0..b7` from the four
little-endian pairs `(major, minor, patch, developer)`, then read the
eight bytes as one big-endian 64-bit integer. -/
def Version.pack (a b c d : Nat) : Nat :=
  (a % 256) * 2 ^ 56 + (a / 256 % 256) * 2 ^ 48 +
  (b % 256) * 2 ^ 40 + (b / 256 % 256) * 2 ^ 32 +
  (c % 256) * 2 ^ 24 + (c / 256 % 256) * 2 ^ 16 +
  (d % 256) * 2 ^ 8 + (d / 256 % 256)

/-- Deserializing a `Version`: `#[serde(from = "u64")]` reads a `u64`
wire integer and converts it. -/
def parseVersion (j : Json) : DResult Version :=
  Version.fromU64 <$> asU64 j

/-- Serializing a `Version`: the derived `Serialize` is NOT overridden
(there is no `#[serde(into = "u64")]`), so the four components are
emitted as an ordinary four-field JSON object. -/
def renderVersion (v : Version) : Json :=
  .obj [("major", .num (v.major : Rat)), ("minor", .num (v.minor : Rat)),
        ("patch", .num (v.patch : Rat)), ("developer", .num (v.developer : Rat))]

/-! ## Enums and their wire-case conventions

Each enum's serde `rename_all` attribute (or its absence) fixes the wire
strings literally, in both directions. -/

/-- `SignalType` (`#[serde(rename_all = "lowercase")]`). -/
inductive SignalType where
  | item | fluid | virtual
deriving DecidableEq

def SignalType.wire : SignalType → String
  | .item => "item"
  | .fluid => "fluid"
  | .virtual => "virtual"

def parseSignalType (j : Json) : DResult SignalType :=
  match j with
  | .str "item" => .ok .item
  | .str "fluid" => .ok .fluid
  | .str "virtual" => .ok .virtual
  | _ => .error (.schemaError "unknown variant of SignalType")

/-- `IoType` (`#[serde(rename_all = "lowercase")]`). -/
inductive IoType where
  | input | output
deriving DecidableEq

def IoType.wire : IoType → String
  | .input => "input"
  | .output => "output"

def parseIoType (j : Json) : DResult IoType :=
  match j with
  | .str "input" => .ok .input
  | .str "output" => .ok .output
  | _ => .error (.schemaError "unknown variant of IoType")

/-- `IoPriority` (`#[serde(rename_all = "lowercase")]`). -/
inductive IoPriority where
  | right | left
deriving DecidableEq

def IoPriority.wire : IoPriority → String
  | .right => "right"
  | .left => "left"

def parseIoPriority (j : Json) : DResult IoPriority :=
  match j with
  | .str "right" => .ok .right
  | .str "left" => .ok .left
  | _ => .error (.schemaError "unknown variant of IoPriority")

/-- `FilterMode` (`#[serde(rename_all = "lowercase")]`). -/
inductive FilterMode where
  | whitelist | blacklist
deriving DecidableEq

def FilterMode.wire : FilterMode → String
  | .whitelist => "whitelist"
  | .blacklist => "blacklist"

def parseFilterMode (j : Json) : DResult FilterMode :=
  match j with
  | .str "whitelist" => .ok .whitelist
  | .str "blacklist" => .ok .blacklist
  | _ => .error (.schemaError "unknown variant of FilterMode")

/-- `ConditionType` (`#[serde(rename_all = "snake_case")]`). -/
inductive ConditionType where
  | time | inactivity | full | empty | itemCount | circuit
  | robotsInactive | fluidCount | passengerPresent | passengerNotPresent
deriving DecidableEq

def ConditionType.wire : ConditionType → String
  | .time => "time"
  | .inactivity => "inactivity"
  | .full => "full"
  | .empty => "empty"
  | .itemCount => "item_count"
  | .circuit => "circuit"
  | .robotsInactive => "robots_inactive"
  | .fluidCount => "fluid_count"
  | .passengerPresent => "passenger_present"
  | .passengerNotPresent => "passenger_not_present"

def parseConditionType (j : Json) : DResult ConditionType :=
  match j with
  | .str "time" => .ok .time
  | .str "inactivity" => .ok .inactivity
  | .str "full" => .ok .full
  | .str "empty" => .ok .empty
  | .str "item_count" => .ok .itemCount
  | .str "circuit" => .ok .circuit
  | .str "robots_inactive" => .ok .robotsInactive
  | .str "fluid_count" => .ok .fluidCount
  | .str "passenger_present" => .ok .passengerPresent
  | .str "passenger_not_present" => .ok .passengerNotPresent
  | _ => .error (.schemaError "unknown variant of ConditionType")

/-- `CompareType` (`#[serde(rename_all = "lowercase")]`). -/
inductive CompareType where
  | and | or
deriving DecidableEq

def CompareType.wire : CompareType → String
  | .and => "and"
  | .or => "or"

def parseCompareType (j : Json) : DResult CompareType :=
  match j with
  | .str "and" => .ok .and
  | .str "or" => .ok .or
  | _ => .error (.schemaError "unknown variant of CompareType")

/-- `InfinityFilterMode` (`#[serde(rename_all = "kebab-case")]`). -/
inductive InfinityFilterMode where
  | atLeast | atMost | exactly
deriving DecidableEq

def InfinityFilterMode.wire : InfinityFilterMode → String
  | .atLeast => "at-least"
  | .atMost => "at-most"
  | .exactly => "exactly"

def parseInfinityFilterMode (j : Json) : DResult InfinityFilterMode :=
  match j with
  | .str "at-least" => .ok .atLeast
  | .str "at-most" => .ok .atMost
  | .str "exactly" => .ok .exactly
  | _ => .error (.schemaError "unknown variant of InfinityFilterMode")

/-- `CircuitConnectorId` (no `rename_all`: wire strings are the variant
names as written). -/
inductive CircuitConnectorId where
  | accumulator | constantCombinator | container | linkedContainer
  | programmableSpeaker | railSignal | railChainSignal | roboport
  | storageTank | wall | electricPole | inserter | lamp
  | combinatorInput | combinatorOutput | offshorePump | pump
deriving DecidableEq

def CircuitConnectorId.wire : CircuitConnectorId → String
  | .accumulator => "Accumulator"
  | .constantCombinator => "ConstantCombinator"
  | .container => "Container"
  | .linkedContainer => "LinkedContainer"
  | .programmableSpeaker => "ProgrammableSpeaker"
  | .railSignal => "RailSignal"
  | .railChainSignal => "RailChainSignal"
  | .roboport => "Roboport"
  | .storageTank => "StorageTank"
  | .wall => "Wall"
  | .electricPole => "ElectricPole"
  | .inserter => "Inserter"
  | .lamp => "Lamp"
  | .combinatorInput => "CombinatorInput"
  | .combinatorOutput => "CombinatorOutput"
  | .offshorePump => "OffshorePump"
  | .pump => "Pump"

def parseCircuitConnectorId (j : Json) : DResult CircuitConnectorId :=
  match j with
  | .str "Accumulator" => .ok .accumulator
  | .str "ConstantCombinator" => .ok .constantCombinator
  | .str "Container" => .ok .container
  | .str "LinkedContainer" => .ok .linkedContainer
  | .str "ProgrammableSpeaker" => .ok .programmableSpeaker
  | .str "RailSignal" => .ok .railSignal
  | .str "RailChainSignal" => .ok .railChainSignal
  | .str "Roboport" => .ok .roboport
  | .str "StorageTank" => .ok .storageTank
  | .str "Wall" => .ok .wall
  | .str "ElectricPole" => .ok .electricPole
  | .str "Inserter" => .ok .inserter
  | .str "Lamp" => .ok .lamp
  | .str "CombinatorInput" => .ok .combinatorInput
  | .str "CombinatorOutput" => .ok .combinatorOutput
  | .str "OffshorePump" => .ok .offshorePump
  | .str "Pump" => .ok .pump
  | _ => .error (.schemaError "unknown variant of CircuitConnectorId")

/-! ## Plain structures of `blueprint.rs` and their serde mappings

Parsing follows the derived `Deserialize` (fields looked up by wire
name, required unless `Option`, unknown keys ignored); rendering follows
the derived `Serialize` (all fields emitted in declaration order,
`Option::None` emitted as `null` — there is no `skip_serializing_if`). -/

/-- `Position`. -/
structure Position where
  x : Rat
  y : Rat

def parsePosition (j : Json) : DResult Position :=
  match j with
  | .obj kvs => do
      let x ← parseField kvs "x" asF64
      let y ← parseField kvs "y" asF64
      .ok ⟨x, y⟩
  | _ => .error (.schemaError "invalid type: expected struct Position")

def renderPosition (p : Position) : Json :=
  .obj [("x", .num p.x), ("y", .num p.y)]

/-- `Color`. -/
structure Color where
  r : Rat
  g : Rat
  b : Rat
  a : Rat

def parseColor (j : Json) : DResult Color :=
  match j with
  | .obj kvs => do
      let r ← parseField kvs "r" asF64
      let g ← parseField kvs "g" asF64
      let b ← parseField kvs "b" asF64
      let a ← parseField kvs "a" asF64
      .ok ⟨r, g, b, a⟩
  | _ => .error (.schemaError "invalid type: expected struct Color")

def renderColor (c : Color) : Json :=
  .obj [("r", .num c.r), ("g", .num c.g), ("b", .num c.b), ("a", .num c.a)]

/-- `SignalId`; the wire name of `signal_type` is `"type"`
(`#[serde(rename = "type")]`). -/
structure SignalId where
  name : String
  signal_type : SignalType

def parseSignalId (j : Json) : DResult SignalId :=
  match j with
  | .obj kvs => do
      let name ← parseField kvs "name" asStr
      let ty ← parseField kvs "type" parseSignalType
      .ok ⟨name, ty⟩
  | _ => .error (.schemaError "invalid type: expected struct SignalId")

def renderSignalId (s : SignalId) : Json :=
  .obj [("name", .str s.name), ("type", .str s.signal_type.wire)]

/-- `Icon`. -/
structure Icon where
  index : Nat
  signal : SignalId

def parseIcon (j : Json) : DResult Icon :=
  match j with
  | .obj kvs => do
      let index ← parseField kvs "index" asNonZeroUsize
      let signal ← parseField kvs "signal" parseSignalId
      .ok ⟨index, signal⟩
  | _ => .error (.schemaError "invalid type: expected struct Icon")

def renderIcon (i : Icon) : Json :=
  .obj [("index", .num (i.index : Rat)), ("signal", renderSignalId i.signal)]

/-- `Tile`. -/
structure Tile where
  name : String
  position : Position

def parseTile (j : Json) : DResult Tile :=
  match j with
  | .obj kvs => do
      let name ← parseField kvs "name" asStr
      let position ← parseField kvs "position" parsePosition
      .ok ⟨name, position⟩
  | _ => .error (.schemaError "invalid type: expected struct Tile")

def renderTile (t : Tile) : Json :=
  .obj [("name", .str t.name), ("position", renderPosition t.position)]

/-- `ItemFilter`. -/
structure ItemFilter where
  name : String
  index : Nat

def parseItemFilter (j : Json) : DResult ItemFilter :=
  match j with
  | .obj kvs => do
      let name ← parseField kvs "name" asStr
      let index ← parseField kvs "index" asNonZeroUsize
      .ok ⟨name, index⟩
  | _ => .error (.schemaError "invalid type: expected struct ItemFilter")

def renderItemFilter (f : ItemFilter) : Json :=
  .obj [("name", .str f.name), ("index", .num (f.index : Rat))]

/-- `Inventory`. -/
structure Inventory where
  filters : List ItemFilter
  bar : Nat

def parseInventory (j : Json) : DResult Inventory :=
  match j with
  | .obj kvs => do
      let filters ← parseField kvs "filters" (asVec parseItemFilter)
      let bar ← parseField kvs "bar" asU16
      .ok ⟨filters, bar⟩
  | _ => .error (.schemaError "invalid type: expected struct Inventory")

def renderInventory (inv : Inventory) : Json :=
  .obj [("filters", .arr (inv.filters.map renderItemFilter)),
        ("bar", .num (inv.bar : Rat))]

/-- `InfinityFilter`. -/
structure InfinityFilter where
  name : String
  count : Nat
  mode : InfinityFilterMode
  index : Nat

def parseInfinityFilter (j : Json) : DResult InfinityFilter :=
  match j with
  | .obj kvs => do
      let name ← parseField kvs "name" asStr
      let count ← parseField kvs "count" asU32
      let mode ← parseField kvs "mode" parseInfinityFilterMode
      let index ← parseField kvs "index" asNonZeroUsize
      .ok ⟨name, count, mode, index⟩
  | _ => .error (.schemaError "invalid type: expected struct InfinityFilter")

def renderInfinityFilter (f : InfinityFilter) : Json :=
  .obj [("name", .str f.name), ("count", .num (f.count : Rat)),
        ("mode", .str f.mode.wire), ("index", .num (f.index : Rat))]

/-- `InfinitySettings` (`filters` is `Option<Vec<InfinityFilter>>`). -/
structure InfinitySettings where
  remove_unfiltered_items : Bool
  filters : Option (List InfinityFilter)

def parseInfinitySettings (j : Json) : DResult InfinitySettings :=
  match j with
  | .obj kvs => do
      let rui ← parseField kvs "remove_unfiltered_items" asBool
      let filters ← parseOptField kvs "filters" (asVec parseInfinityFilter)
      .ok ⟨rui, filters⟩
  | _ => .error (.schemaError "invalid type: expected struct InfinitySettings")

def renderOpt (f : α → Json) : Option α → Json
  | none => .null
  | some x => f x

def renderInfinitySettings (s : InfinitySettings) : Json :=
  .obj [("remove_unfiltered_items", .bool s.remove_unfiltered_items),
        ("filters", renderOpt (fun fs => .arr (fs.map renderInfinityFilter)) s.filters)]

/-- `LogisticFilter`. -/
structure LogisticFilter where
  name : String
  index : Nat
  count : Nat

def parseLogisticFilter (j : Json) : DResult LogisticFilter :=
  match j with
  | .obj kvs => do
      let name ← parseField kvs "name" asStr
      let index ← parseField kvs "index" asNonZeroUsize
      let count ← parseField kvs "count" asU32
      .ok ⟨name, index, count⟩
  | _ => .error (.schemaError "invalid type: expected struct LogisticFilter")

def renderLogisticFilter (f : LogisticFilter) : Json :=
  .obj [("name", .str f.name), ("index", .num (f.index : Rat)),
        ("count", .num (f.count : Rat))]

/-- `SpeakerParameter`. -/
structure SpeakerParameter where
  playback_volume : Rat
  playback_globally : Bool
  allow_polyphony : Bool

def parseSpeakerParameter (j : Json) : DResult SpeakerParameter :=
  match j with
  | .obj kvs => do
      let vol ← parseField kvs "playback_volume" asF64
      let glob ← parseField kvs "playback_globally" asBool
      let poly ← parseField kvs "allow_polyphony" asBool
      .ok ⟨vol, glob, poly⟩
  | _ => .error (.schemaError "invalid type: expected struct SpeakerParameter")

def renderSpeakerParameter (p : SpeakerParameter) : Json :=
  .obj [("playback_volume", .num p.playback_volume),
        ("playback_globally", .bool p.playback_globally),
        ("allow_polyphony", .bool p.allow_polyphony)]

/-- `SpeakerAlertParameter`. -/
structure SpeakerAlertParameter where
  show_alert : Bool
  show_on_map : Bool
  icon_signal_id : SignalId
  alert_message : String

def parseSpeakerAlertParameter (j : Json) : DResult SpeakerAlertParameter :=
  match j with
  | .obj kvs => do
      let sa ← parseField kvs "show_alert" asBool
      let som ← parseField kvs "show_on_map" asBool
      let isi ← parseField kvs "icon_signal_id" parseSignalId
      let am ← parseField kvs "alert_message" asStr
      .ok ⟨sa, som, isi, am⟩
  | _ => .error (.schemaError "invalid type: expected struct SpeakerAlertParameter")

def renderSpeakerAlertParameter (p : SpeakerAlertParameter) : Json :=
  .obj [("show_alert", .bool p.show_alert), ("show_on_map", .bool p.show_on_map),
        ("icon_signal_id", renderSignalId p.icon_signal_id),
        ("alert_message", .str p.alert_message)]

/-! ## Wiring structures -/

/-- `ConnectionData`. -/
structure ConnectionData where
  entity_id : Nat
  circuit_id : CircuitConnectorId

def parseConnectionData (j : Json) : DResult ConnectionData :=
  match j with
  | .obj kvs => do
      let eid ← parseField kvs "entity_id" asNonZeroUsize
      let cid ← parseField kvs "circuit_id" parseCircuitConnectorId
      .ok ⟨eid, cid⟩
  | _ => .error (.schemaError "invalid type: expected struct ConnectionData")

def renderConnectionData (d : ConnectionData) : Json :=
  .obj [("entity_id", .num (d.entity_id : Rat)), ("circuit_id", .str d.circuit_id.wire)]

/-- `ConnectionPoint`: both `red` and `green` are required `Vec`s. -/
structure ConnectionPoint where
  red : List ConnectionData
  green : List ConnectionData

def parseConnectionPoint (j : Json) : DResult ConnectionPoint :=
  match j with
  | .obj kvs => do
      let red ← parseField kvs "red" (asVec parseConnectionData)
      let green ← parseField kvs "green" (asVec parseConnectionData)
      .ok ⟨red, green⟩
  | _ => .error (.schemaError "invalid type: expected struct ConnectionPoint")

def renderConnectionPoint (p : ConnectionPoint) : Json :=
  .obj [("red", .arr (p.red.map renderConnectionData)),
        ("green", .arr (p.green.map renderConnectionData))]

/-- `Connection`: the wire keys are the literal strings `"1"` and `"2"`
(`#[serde(rename = "1")]` / `#[serde(rename = "2")]`); both points are
required fields. -/
structure Connection where
  first : ConnectionPoint
  second : ConnectionPoint

def parseConnection (j : Json) : DResult Connection :=
  match j with
  | .obj kvs => do
      let first ← parseField kvs "1" parseConnectionPoint
      let second ← parseField kvs "2" parseConnectionPoint
      .ok ⟨first, second⟩
  | _ => .error (.schemaError "invalid type: expected struct Connection")

def renderConnection (c : Connection) : Json :=
  .obj [("1", renderConnectionPoint c.first), ("2", renderConnectionPoint c.second)]

/-- serde_json integer map keys are deserialized from the key string
with Rust's integer `FromStr` (optional leading `+`, decimal digits). -/
def natFromDigits (cs : List Char) : Option Nat :=
  match cs with
  | [] => none
  | _ => cs.foldlM (fun acc c =>
      if c.isDigit then some (acc * 10 + (c.toNat - 48)) else none) 0

/-- A `NonZeroUsize` map key (the key type of `ConnectionWrapper =
HashMap<NonZeroUsize, Connection>`): the key string is parsed as a
`usize` and must be nonzero. -/
def parseMapKeyNonZeroUsize (s : String) : DResult Nat :=
  let digits := match s.toList with
    | '+' :: rest => rest
    | cs => cs
  match natFromDigits digits with
  | none => .error (.schemaError "invalid map key: expected usize")
  | some n =>
      if n < 2 ^ 64 then
        if n = 0 then .error (.schemaError "invalid value: 0, expected a nonzero usize")
        else .ok n
      else .error (.schemaError "invalid map key: out of range")

/-- serde's map visitor: entries are consumed in wire order, failing
fast on the first bad key or value. -/
def parseConnEntries : List (String × Json) → DResult (List (Nat × Connection))
  | [] => .ok []
  | (k, v) :: rest => do
      let key ← parseMapKeyNonZeroUsize k
      let conn ← parseConnection v
      let tail ← parseConnEntries rest
      .ok ((key, conn) :: tail)

/-- `ConnectionWrapper = HashMap<NonZeroUsize, Connection>`, parsed from
a JSON object ("object with keys starting from 1"). -/
def parseConnectionWrapper (j : Json) : DResult (List (Nat × Connection)) :=
  match j with
  | .obj kvs => parseConnEntries kvs
  | _ => .error (.schemaError "invalid type: expected a map")

def renderConnectionWrapper (m : List (Nat × Connection)) : Json :=
  .obj (m.map (fun kv => (toString kv.1, renderConnection kv.2)))

/-- serde's map visitor for `ItemRequest` entries. -/
def parseItemEntries : List (String × Json) → DResult (List (String × Nat))
  | [] => .ok []
  | (k, v) :: rest => do
      let count ← asU32 v
      let tail ← parseItemEntries rest
      .ok ((k, count) :: tail)

/-- `ItemRequest = HashMap<String, ItemCountType>`. -/
def parseItemRequest (j : Json) : DResult (List (String × Nat)) :=
  match j with
  | .obj kvs => parseItemEntries kvs
  | _ => .error (.schemaError "invalid type: expected a map")

def renderItemRequest (m : List (String × Nat)) : Json :=
  .obj (m.map (fun kv => (kv.1, .num (kv.2 : Rat))))

/-! ## Schedules -/

/-- `CircuitCondition` is declared in the source as an EMPTY struct: the
payload's shape is not modelled at all. -/
structure CircuitCondition where

/-- `WaitCondition`. `condition_type` has wire name `"type"`; the
`condition` field carries BOTH `#[serde(skip)]` and `#[serde(default)]`:
it is never read from the wire (it always deserializes to the default,
`None`) and never written to the wire. -/
structure WaitCondition where
  condition_type : ConditionType
  compare_type : CompareType
  ticks : Option Nat
  condition : Option CircuitCondition

def parseWaitCondition (j : Json) : DResult WaitCondition :=
  match j with
  | .obj kvs => do
      let ct ← parseField kvs "type" parseConditionType
      let cmp ← parseField kvs "compare_type" parseCompareType
      let ticks ← parseOptField kvs "ticks" asU64
      .ok ⟨ct, cmp, ticks, none⟩
  | _ => .error (.schemaError "invalid type: expected struct WaitCondition")

def renderWaitCondition (w : WaitCondition) : Json :=
  .obj [("type", .str w.condition_type.wire),
        ("compare_type", .str w.compare_type.wire),
        ("ticks", renderOpt (fun n => .num (n : Rat)) w.ticks)]

/-- `ScheduleRecord`. -/
structure ScheduleRecord where
  station : String
  wait_conditions : List WaitCondition

def parseScheduleRecord (j : Json) : DResult ScheduleRecord :=
  match j with
  | .obj kvs => do
      let station ← parseField kvs "station" asStr
      let wcs ← parseField kvs "wait_conditions" (asVec parseWaitCondition)
      .ok ⟨station, wcs⟩
  | _ => .error (.schemaError "invalid type: expected struct ScheduleRecord")

def renderScheduleRecord (r : ScheduleRecord) : Json :=
  .obj [("station", .str r.station),
        ("wait_conditions", .arr (r.wait_conditions.map renderWaitCondition))]

/-- `Schedule`. -/
structure Schedule where
  schedule : List ScheduleRecord
  locomotives : List Nat

def parseSchedule (j : Json) : DResult Schedule :=
  match j with
  | .obj kvs => do
      let records ← parseField kvs "schedule" (asVec parseScheduleRecord)
      let locos ← parseField kvs "locomotives" (asVec asNonZeroUsize)
      .ok ⟨records, locos⟩
  | _ => .error (.schemaError "invalid type: expected struct Schedule")

def renderSchedule (s : Schedule) : Json :=
  .obj [("schedule", .arr (s.schedule.map renderScheduleRecord)),
        ("locomotives", .arr (s.locomotives.map (fun n => .num (n : Rat))))]

/-! ## Entity

`blueprint.rs` lines 126–189. Exactly the fields typed `Option<...>` in
the source are optional on the wire; every other field is required by
the derived `Deserialize`. The wire name of `neighbors` is `"neighbours"`
and the wire name of `io_type` is `"type"`. -/

/-- `Entity`, field for field as declared in the source. -/
structure Entity where
  entity_number : Nat
  name : String
  position : Position
  direction : Option Nat
  orientation : Option Rat
  connections : Option (List (Nat × Connection))
  neighbors : Option (List Nat)
  items : List (String × Nat)
  recipe : String
  bar : Nat
  inventory : Inventory
  infinity_settings : InfinitySettings
  io_type : IoType
  input_priority : Option IoPriority
  output_priority : Option IoPriority
  filter : Option String
  filters : Option (List ItemFilter)
  filter_mode : FilterMode
  override_stack_size : Option Nat
  drop_position : Position
  pickup_position : Position
  request_filters : Option LogisticFilter
  request_from_buffers : Bool
  parameters : SpeakerParameter
  alert_parameters : SpeakerAlertParameter
  auto_launch : Bool
  variation : Nat
  color : Color
  station : String

def parseEntity (j : Json) : DResult Entity :=
  match j with
  | .obj kvs => do
      let entity_number ← parseField kvs "entity_number" asNonZeroUsize
      let name ← parseField kvs "name" asStr
      let position ← parseField kvs "position" parsePosition
      let direction ← parseOptField kvs "direction" asU64
      let orientation ← parseOptField kvs "orientation" asF64
      let connections ← parseOptField kvs "connections" parseConnectionWrapper
      let neighbors ← parseOptField kvs "neighbours" (asVec asNonZeroUsize)
      let items ← parseField kvs "items" parseItemRequest
      let recipe ← parseField kvs "recipe" asStr
      let bar ← parseField kvs "bar" asU16
      let inventory ← parseField kvs "inventory" parseInventory
      let infinity_settings ← parseField kvs "infinity_settings" parseInfinitySettings
      let io_type ← parseField kvs "type" parseIoType
      let input_priority ← parseOptField kvs "input_priority" parseIoPriority
      let output_priority ← parseOptField kvs "output_priority" parseIoPriority
      let filter ← parseOptField kvs "filter" asStr
      let filters ← parseOptField kvs "filters" (asVec parseItemFilter)
      let filter_mode ← parseField kvs "filter_mode" parseFilterMode
      let override_stack_size ← parseOptField kvs "override_stack_size" asU8
      let drop_position ← parseField kvs "drop_position" parsePosition
      let pickup_position ← parseField kvs "pickup_position" parsePosition
      let request_filters ← parseOptField kvs "request_filters" parseLogisticFilter
      let request_from_buffers ← parseField kvs "request_from_buffers" asBool
      let parameters ← parseField kvs "parameters" parseSpeakerParameter
      let alert_parameters ← parseField kvs "alert_parameters" parseSpeakerAlertParameter
      let auto_launch ← parseField kvs "auto_launch" asBool
      let variation ← parseField kvs "variation" asU8
      let color ← parseField kvs "color" parseColor
      let station ← parseField kvs "station" asStr
      .ok ⟨entity_number, name, position, direction, orientation, connections,
           neighbors, items, recipe, bar, inventory, infinity_settings, io_type,
           input_priority, output_priority, filter, filters, filter_mode,
           override_stack_size, drop_position, pickup_position, request_filters,
           request_from_buffers, parameters, alert_parameters, auto_launch,
           variation, color, station⟩
  | _ => .error (.schemaError "invalid type: expected struct Entity")

def renderEntity (e : Entity) : Json :=
  .obj [("entity_number", .num (e.entity_number : Rat)),
        ("name", .str e.name),
        ("position", renderPosition e.position),
        ("direction", renderOpt (fun n => .num (n : Rat)) e.direction),
        ("orientation", renderOpt (fun q => .num q) e.orientation),
        ("connections", renderOpt renderConnectionWrapper e.connections),
        ("neighbours", renderOpt (fun ns => .arr (ns.map (fun n => .num (n : Rat)))) e.neighbors),
        ("items", renderItemRequest e.items),
        ("recipe", .str e.recipe),
        ("bar", .num (e.bar : Rat)),
        ("inventory", renderInventory e.inventory),
        ("infinity_settings", renderInfinitySettings e.infinity_settings),
        ("type", .str e.io_type.wire),
        ("input_priority", renderOpt (fun p => .str p.wire) e.input_priority),
        ("output_priority", renderOpt (fun p => .str p.wire) e.output_priority),
        ("filter", renderOpt .str e.filter),
        ("filters", renderOpt (fun fs => .arr (fs.map renderItemFilter)) e.filters),
        ("filter_mode", .str e.filter_mode.wire),
        ("override_stack_size", renderOpt (fun n => .num (n : Rat)) e.override_stack_size),
        ("drop_position", renderPosition e.drop_position),
        ("pickup_position", renderPosition e.pickup_position),
        ("request_filters", renderOpt renderLogisticFilter e.request_filters),
        ("request_from_buffers", .bool e.request_from_buffers),
        ("parameters", renderSpeakerParameter e.parameters),
        ("alert_parameters", renderSpeakerAlertParameter e.alert_parameters),
        ("auto_launch", .bool e.auto_launch),
        ("variation", .num (e.variation : Rat)),
        ("color", renderColor e.color),
        ("station", .str e.station)]

/-! ## Blueprint, BlueprintBook, and the document root -/

/-- `Blueprint`. -/
structure Blueprint where
  item : String
  label : String
  label_color : Color
  entities : List Entity
  tiles : List Tile
  icons : List Icon
  schedules : List Schedule
  version : Version

def parseBlueprint (j : Json) : DResult Blueprint :=
  match j with
  | .obj kvs => do
      let item ← parseField kvs "item" asStr
      let label ← parseField kvs "label" asStr
      let label_color ← parseField kvs "label_color" parseColor
      let entities ← parseField kvs "entities" (asVec parseEntity)
      let tiles ← parseField kvs "tiles" (asVec parseTile)
      let icons ← parseField kvs "icons" (asVec parseIcon)
      let schedules ← parseField kvs "schedules" (asVec parseSchedule)
      let version ← parseField kvs "version" parseVersion
      .ok ⟨item, label, label_color, entities, tiles, icons, schedules, version⟩
  | _ => .error (.schemaError "invalid type: expected struct Blueprint")

def renderBlueprint (bp : Blueprint) : Json :=
  .obj [("item", .str bp.item),
        ("label", .str bp.label),
        ("label_color", renderColor bp.label_color),
        ("entities", .arr (bp.entities.map renderEntity)),
        ("tiles", .arr (bp.tiles.map renderTile)),
        ("icons", .arr (bp.icons.map renderIcon)),
        ("schedules", .arr (bp.schedules.map renderSchedule)),
        ("version", renderVersion bp.version)]

/-- `BookBpWrapper`. -/
structure BookBpWrapper where
  index : Nat
  blueprint : Blueprint

def parseBookBpWrapper (j : Json) : DResult BookBpWrapper :=
  match j with
  | .obj kvs => do
      let index ← parseField kvs "index" asU64
      let blueprint ← parseField kvs "blueprint" parseBlueprint
      .ok ⟨index, blueprint⟩
  | _ => .error (.schemaError "invalid type: expected struct BookBpWrapper")

def renderBookBpWrapper (w : BookBpWrapper) : Json :=
  .obj [("index", .num (w.index : Rat)), ("blueprint", renderBlueprint w.blueprint)]

/-- `BlueprintBook`. -/
structure BlueprintBook where
  item : String
  label : String
  label_color : Color
  blueprints : List BookBpWrapper
  active_index : Nat
  version : Version

def parseBlueprintBook (j : Json) : DResult BlueprintBook :=
  match j with
  | .obj kvs => do
      let item ← parseField kvs "item" asStr
      let label ← parseField kvs "label" asStr
      let label_color ← parseField kvs "label_color" parseColor
      let blueprints ← parseField kvs "blueprints" (asVec parseBookBpWrapper)
      let active_index ← parseField kvs "active_index" asU64
      let version ← parseField kvs "version" parseVersion
      .ok ⟨item, label, label_color, blueprints, active_index, version⟩
  | _ => .error (.schemaError "invalid type: expected struct BlueprintBook")

def renderBlueprintBook (bb : BlueprintBook) : Json :=
  .obj [("item", .str bb.item),
        ("label", .str bb.label),
        ("label_color", renderColor bb.label_color),
        ("blueprints", .arr (bb.blueprints.map renderBookBpWrapper)),
        ("active_index", .num (bb.active_index : Rat)),
        ("version", renderVersion bb.version)]

/-- A decoded document: exactly one of the two top-level variants. -/
inductive Document where
  | blueprint (bp : Blueprint) : Document
  | book (bb : BlueprintBook) : Document

/-- Root dispatch from `main.rs` `decode_bp` (lines 37–52): the JSON
root must be an object (`Map<String, Value>`); if it has a `"blueprint"`
entry that value is parsed as a `Blueprint`, otherwise if it has a
`"blueprint_book"` entry that value is parsed as a `BlueprintBook`,
otherwise the code fails with the `InvalidData` error whose literal
message is `"given data is not a blueprint or blueprint book"`. -/
def parseDocument (j : Json) : DResult Document :=
  match j with
  | .obj kvs =>
      match jlookup kvs "blueprint" with
      | some inner => Document.blueprint <$> parseBlueprint inner
      | none =>
          match jlookup kvs "blueprint_book" with
          | some inner => Document.book <$> parseBlueprintBook inner
          | none => .error (.dataError "given data is not a blueprint or blueprint book")
  | _ => .error (.schemaError "invalid type: expected a JSON object at the root")

/-- Modelled from the spec: the encode direction of the root dispatch is
absent from `src` (the CLI only decodes). Per §4.2's reverse mapping, a
document serializes to an object with the single key `"blueprint"` or
`"blueprint_book"` wrapping the serialized variant. -/
def renderDocument : Document → Json
  | .blueprint bp => .obj [("blueprint", renderBlueprint bp)]
  | .book bb => .obj [("blueprint_book", renderBlueprintBook bb)]

/-! ## Envelope codec

`main.rs` `decode_bp`, lines 14–31: strip `\n`/`\r`, drop the first
remaining character unvalidated, base64-decode (the `base64` crate's
`general_purpose::STANDARD` engine: standard alphabet, canonical
padding), then zlib-inflate to UTF-8 text (the `flate2` crate). The two
external crates are modelled: base64 concretely below, zlib as an
explicit function parameter (`none` = decompression or UTF-8 failure,
exactly the failures `read_to_string` surfaces). -/

/-- Value of one standard-alphabet base64 character. -/
def b64CharVal (c : Char) : Option Nat :=
  if 'A' ≤ c ∧ c ≤ 'Z' then some (c.toNat - 65)
  else if 'a' ≤ c ∧ c ≤ 'z' then some (c.toNat - 97 + 26)
  else if '0' ≤ c ∧ c ≤ '9' then some (c.toNat - 48 + 52)
  else if c = '+' then some 62
  else if c = '/' then some 63
  else none

/-- Decode base64 four characters at a time. The `STANDARD` engine
requires canonical padding: the input length is a multiple of four, `=`
may appear only at the end of the final block, and unused trailing bits
must be zero. -/
def b64DecodeBlocks : List Char → Option (List Nat)
  | [] => some []
  | a :: b :: c :: d :: rest =>
      match b64CharVal a, b64CharVal b with
      | some va, some vb =>
          if c = '=' then
            if d = '=' ∧ rest = [] ∧ vb % 16 = 0 then
              some [va * 4 + vb / 16]
            else none
          else
            match b64CharVal c with
            | some vc =>
                if d = '=' then
                  if rest = [] ∧ vc % 4 = 0 then
                    some [va * 4 + vb / 16, vb % 16 * 16 + vc / 4]
                  else none
                else
                  match b64CharVal d with
                  | some vd =>
                      (b64DecodeBlocks rest).map
                        (fun tail => (va * 4 + vb / 16) :: (vb % 16 * 16 + vc / 4) ::
                                     (vc % 4 * 64 + vd) :: tail)
                  | none => none
            | none => none
      | _, _ => none
  | _ => none

/-- `general_purpose::STANDARD.decode`. -/
def base64DecodeStandard (s : String) : Option (List Nat) :=
  b64DecodeBlocks s.toList

/-- `decode_bp`'s envelope stage, statement for statement from
`main.rs`: `input.retain(|c| !(c == '\n' || c == '\r'))`, then
`input.chars()` with the first element `unwrap`ped away (a panic when
the stripped input is empty), the rest collected and base64-decoded
(failure mapped to an `InvalidData` error), then inflated
(`ZlibDecoder` + `read_to_string`; failure propagated). -/
def decode_bp (inflate : List Nat → Option String) (input0 : String) :
    DResult String :=
  let input := input0.toList.filter (fun c => !(c == '\n' || c == '\r'))
  match input with
  | [] => .error (.panicked "called `Option::unwrap()` on a `None` value")
  | _version :: rest =>
      let parseable := String.mk rest
      match base64DecodeStandard parseable with
      | none => .error (.formatError "invalid base64")
      | some input_bytes =>
          match inflate input_bytes with
          | none => .error (.formatError "zlib decompression or UTF-8 failure")
          | some json => .ok json

/-- A line-break character in the sense of spec §4.1 step 1/§6:
carriage return or line feed. -/
def isLineBreak (c : Char) : Bool := c = '\n' || c = '\r'

/-- The envelope decode pipeline exactly as spec §4.1 words it:
(1) strip all line-break characters; (2) remove the first remaining
character without validating it; (3) base64-decode the remainder with
the standard alphabet and padding, `FormatError` on failure; (4) inflate
to UTF-8 text, `FormatError` on failure; the decoded JSON text is the
inflated text. -/
def envelopeDecodeSpec (inflate : List Nat → Option String) (s : String) :
    DResult String :=
  let stripped := s.toList.filter (fun c => !isLineBreak c)
  match stripped with
  | [] => .error (.panicked "called `Option::unwrap()` on a `None` value")
  | _marker :: rest =>
      match base64DecodeStandard (String.mk rest) with
      | none => .error (.formatError "invalid base64")
      | some bytes =>
          match inflate bytes with
          | none => .error (.formatError "zlib decompression or UTF-8 failure")
          | some text => .ok text

/-! ## Generic helper lemmas -/

/-- Substring test: does `needle` occur contiguously in `hay`? -/
def listHasSub : List Char → List Char → Bool
  | hay, needle =>
      if needle.isPrefixOf hay then true
      else
        match hay with
        | [] => false
        | _ :: t => listHasSub t needle

/-- Substring test on strings. -/
def strHasSub (hay needle : String) : Bool :=
  listHasSub hay.toList needle.toList

theorem bindErrorOf {α β : Type} {m : DResult α} {k : α → DResult β}
    (h : ∀ a, ∃ e, k a = .error e) : ∃ e, (m >>= k) = .error e := by
  cases m with
  | error e => exact ⟨e, rfl⟩
  | ok a => exact h a

theorem bindEqOk {α β : Type} {m : DResult α} {k : α → DResult β} {b : β}
    (h : (m >>= k) = .ok b) : ∃ a, m = .ok a ∧ k a = .ok b := by
  cases m with
  | error e => exact Except.noConfusion h
  | ok a => exact ⟨a, rfl, h⟩

theorem mapErrorOf {α β : Type} {f : α → β} {m : DResult α}
    (h : ∃ e, m = .error e) : ∃ e, (f <$> m) = .error e := by
  obtain ⟨e, he⟩ := h
  exact ⟨e, by rw [he]; rfl⟩

/-- Any rendered `Color` parses back to itself (all four fields are
plain required floats). -/
theorem parseColor_renderColor (c : Color) : parseColor (renderColor c) = .ok c := rfl

/-- A rendered `Version` never parses back: the derived `Serialize`
emits a four-field object (there is no `#[serde(into = "u64")]`), while
`#[serde(from = "u64")]` makes parsing demand a bare integer. -/
theorem parseVersion_renderVersion (v : Version) :
    parseVersion (renderVersion v) =
      .error (.schemaError "invalid type: expected an unsigned integer") := rfl

/-! ## Claim theorems -/

/-- **C2.** For every 64-bit wire integer `V` with big-endian bytes
`b0..b7`, `From<u64> for Version` yields `major = le_u16(b0,b1)`,
`minor = le_u16(b2,b3)`, `patch = le_u16(b4,b5)` and
`developer = le_u16(b6,b7)`. -/
theorem version_unpack_be_le (v : Nat) (h : v < 2 ^ 64) :
    Version.fromU64 v =
      ⟨leU16 (beByte v 0) (beByte v 1), leU16 (beByte v 2) (beByte v 3),
       leU16 (beByte v 4) (beByte v 5), leU16 (beByte v 6) (beByte v 7)⟩ := by
  simp only [Version.fromU64, u64ToBeBytes, u16FromLeBytes, beByte, leU16,
    List.getD_cons_zero, List.getD_cons_succ]
  norm_num

/-- Witness for C2 at the wire integer of game version 1.1.1.1. -/
theorem version_unpack_be_le_witness :
    72058693566333184 < 2 ^ 64 ∧
    Version.fromU64 72058693566333184 =
      ⟨leU16 (beByte 72058693566333184 0) (beByte 72058693566333184 1),
       leU16 (beByte 72058693566333184 2) (beByte 72058693566333184 3),
       leU16 (beByte 72058693566333184 4) (beByte 72058693566333184 5),
       leU16 (beByte 72058693566333184 6) (beByte 72058693566333184 7)⟩ :=
  ⟨by norm_num, version_unpack_be_le 72058693566333184 (by norm_num)⟩

/-- **C3, counterexample.** Packing is NOT exercised by serializing a
`Version`: the serializer emits a four-field JSON object, not the packed
64-bit integer. -/
theorem version_pack_not_serialized :
    renderVersion ⟨1, 1, 1, 1⟩ ≠ Json.num ((Version.pack 1 1 1 1 : Nat) : Rat) := by
  intro h
  exact Json.noConfusion h

/-- Unpacking a 64-bit integer assembled from eight explicit bytes
recovers the four little-endian 16-bit pairs. -/
theorem fromU64_of_bytes (n0 n1 n2 n3 n4 n5 n6 n7 : Nat)
    (h0 : n0 < 256) (h1 : n1 < 256) (h2 : n2 < 256) (h3 : n3 < 256)
    (h4 : n4 < 256) (h5 : n5 < 256) (h6 : n6 < 256) (h7 : n7 < 256) :
    Version.fromU64 (n0 * 2 ^ 56 + n1 * 2 ^ 48 + n2 * 2 ^ 40 + n3 * 2 ^ 32 +
        n4 * 2 ^ 24 + n5 * 2 ^ 16 + n6 * 2 ^ 8 + n7) =
      ⟨n0 + 256 * n1, n2 + 256 * n3, n4 + 256 * n5, n6 + 256 * n7⟩ := by
  have e56 : (n0 * 2 ^ 56 + n1 * 2 ^ 48 + n2 * 2 ^ 40 + n3 * 2 ^ 32 +
      n4 * 2 ^ 24 + n5 * 2 ^ 16 + n6 * 2 ^ 8 + n7) / 2 ^ 56 = n0 := by
    rw [show n0 * 2 ^ 56 + n1 * 2 ^ 48 + n2 * 2 ^ 40 + n3 * 2 ^ 32 +
        n4 * 2 ^ 24 + n5 * 2 ^ 16 + n6 * 2 ^ 8 + n7 =
        2 ^ 56 * n0 + (n1 * 2 ^ 48 + n2 * 2 ^ 40 + n3 * 2 ^ 32 +
        n4 * 2 ^ 24 + n5 * 2 ^ 16 + n6 * 2 ^ 8 + n7) by ring]
    rw [Nat.mul_add_div (by norm_num), Nat.div_eq_of_lt (by omega), Nat.add_zero]
  have e48 : (n0 * 2 ^ 56 + n1 * 2 ^ 48 + n2 * 2 ^ 40 + n3 * 2 ^ 32 +
      n4 * 2 ^ 24 + n5 * 2 ^ 16 + n6 * 2 ^ 8 + n7) / 2 ^ 48 = n0 * 256 + n1 := by
    rw [show n0 * 2 ^ 56 + n1 * 2 ^ 48 + n2 * 2 ^ 40 + n3 * 2 ^ 32 +
        n4 * 2 ^ 24 + n5 * 2 ^ 16 + n6 * 2 ^ 8 + n7 =
        2 ^ 48 * (n0 * 256 + n1) + (n2 * 2 ^ 40 + n3 * 2 ^ 32 +
        n4 * 2 ^ 24 + n5 * 2 ^ 16 + n6 * 2 ^ 8 + n7) by ring]
    rw [Nat.mul_add_div (by norm_num), Nat.div_eq_of_lt (by omega), Nat.add_zero]
  have e40 : (n0 * 2 ^ 56 + n1 * 2 ^ 48 + n2 * 2 ^ 40 + n3 * 2 ^ 32 +
      n4 * 2 ^ 24 + n5 * 2 ^ 16 + n6 * 2 ^ 8 + n7) / 2 ^ 40 =
      n0 * 2 ^ 16 + n1 * 256 + n2 := by
    rw [show n0 * 2 ^ 56 + n1 * 2 ^ 48 + n2 * 2 ^ 40 + n3 * 2 ^ 32 +
        n4 * 2 ^ 24 + n5 * 2 ^ 16 + n6 * 2 ^ 8 + n7 =
        2 ^ 40 * (n0 * 2 ^ 16 + n1 * 256 + n2) + (n3 * 2 ^ 32 +
        n4 * 2 ^ 24 + n5 * 2 ^ 16 + n6 * 2 ^ 8 + n7) by ring]
    rw [Nat.mul_add_div (by norm_num), Nat.div_eq_of_lt (by omega), Nat.add_zero]
  have e32 : (n0 * 2 ^ 56 + n1 * 2 ^ 48 + n2 * 2 ^ 40 + n3 * 2 ^ 32 +
      n4 * 2 ^ 24 + n5 * 2 ^ 16 + n6 * 2 ^ 8 + n7) / 2 ^ 32 =
      n0 * 2 ^ 24 + n1 * 2 ^ 16 + n2 * 256 + n3 := by
    rw [show n0 * 2 ^ 56 + n1 * 2 ^ 48 + n2 * 2 ^ 40 + n3 * 2 ^ 32 +
        n4 * 2 ^ 24 + n5 * 2 ^ 16 + n6 * 2 ^ 8 + n7 =
        2 ^ 32 * (n0 * 2 ^ 24 + n1 * 2 ^ 16 + n2 * 256 + n3) + (n4 * 2 ^ 24 +
        n5 * 2 ^ 16 + n6 * 2 ^ 8 + n7) by ring]
    rw [Nat.mul_add_div (by norm_num), Nat.div_eq_of_lt (by omega), Nat.add_zero]
  have e24 : (n0 * 2 ^ 56 + n1 * 2 ^ 48 + n2 * 2 ^ 40 + n3 * 2 ^ 32 +
      n4 * 2 ^ 24 + n5 * 2 ^ 16 + n6 * 2 ^ 8 + n7) / 2 ^ 24 =
      n0 * 2 ^ 32 + n1 * 2 ^ 24 + n2 * 2 ^ 16 + n3 * 256 + n4 := by
    rw [show n0 * 2 ^ 56 + n1 * 2 ^ 48 + n2 * 2 ^ 40 + n3 * 2 ^ 32 +
        n4 * 2 ^ 24 + n5 * 2 ^ 16 + n6 * 2 ^ 8 + n7 =
        2 ^ 24 * (n0 * 2 ^ 32 + n1 * 2 ^ 24 + n2 * 2 ^ 16 + n3 * 256 + n4) +
        (n5 * 2 ^ 16 + n6 * 2 ^ 8 + n7) by ring]
    rw [Nat.mul_add_div (by norm_num), Nat.div_eq_of_lt (by omega), Nat.add_zero]
  have e16 : (n0 * 2 ^ 56 + n1 * 2 ^ 48 + n2 * 2 ^ 40 + n3 * 2 ^ 32 +
      n4 * 2 ^ 24 + n5 * 2 ^ 16 + n6 * 2 ^ 8 + n7) / 2 ^ 16 =
      n0 * 2 ^ 40 + n1 * 2 ^ 32 + n2 * 2 ^ 24 + n3 * 2 ^ 16 + n4 * 256 + n5 := by
    rw [show n0 * 2 ^ 56 + n1 * 2 ^ 48 + n2 * 2 ^ 40 + n3 * 2 ^ 32 +
        n4 * 2 ^ 24 + n5 * 2 ^ 16 + n6 * 2 ^ 8 + n7 =
        2 ^ 16 * (n0 * 2 ^ 40 + n1 * 2 ^ 32 + n2 * 2 ^ 24 + n3 * 2 ^ 16 +
        n4 * 256 + n5) + (n6 * 2 ^ 8 + n7) by ring]
    rw [Nat.mul_add_div (by norm_num), Nat.div_eq_of_lt (by omega), Nat.add_zero]
  have e8 : (n0 * 2 ^ 56 + n1 * 2 ^ 48 + n2 * 2 ^ 40 + n3 * 2 ^ 32 +
      n4 * 2 ^ 24 + n5 * 2 ^ 16 + n6 * 2 ^ 8 + n7) / 2 ^ 8 =
      n0 * 2 ^ 48 + n1 * 2 ^ 40 + n2 * 2 ^ 32 + n3 * 2 ^ 24 + n4 * 2 ^ 16 +
      n5 * 256 + n6 := by
    rw [show n0 * 2 ^ 56 + n1 * 2 ^ 48 + n2 * 2 ^ 40 + n3 * 2 ^ 32 +
        n4 * 2 ^ 24 + n5 * 2 ^ 16 + n6 * 2 ^ 8 + n7 =
        2 ^ 8 * (n0 * 2 ^ 48 + n1 * 2 ^ 40 + n2 * 2 ^ 32 + n3 * 2 ^ 24 +
        n4 * 2 ^ 16 + n5 * 256 + n6) + n7 by ring]
    rw [Nat.mul_add_div (by norm_num), Nat.div_eq_of_lt (by omega), Nat.add_zero]
  have e0 : (n0 * 2 ^ 56 + n1 * 2 ^ 48 + n2 * 2 ^ 40 + n3 * 2 ^ 32 +
      n4 * 2 ^ 24 + n5 * 2 ^ 16 + n6 * 2 ^ 8 + n7) % 256 = n7 := by
    rw [show n0 * 2 ^ 56 + n1 * 2 ^ 48 + n2 * 2 ^ 40 + n3 * 2 ^ 32 +
        n4 * 2 ^ 24 + n5 * 2 ^ 16 + n6 * 2 ^ 8 + n7 =
        256 * (n0 * 2 ^ 48 + n1 * 2 ^ 40 + n2 * 2 ^ 32 + n3 * 2 ^ 24 +
        n4 * 2 ^ 16 + n5 * 256 + n6) + n7 by ring]
    rw [Nat.mul_add_mod, Nat.mod_eq_of_lt h7]
  simp only [Version.fromU64, u64ToBeBytes, u16FromLeBytes,
    List.getD_cons_zero, List.getD_cons_succ, Version.mk.injEq]
  rw [e56, e48, e40, e32, e24, e16, e8, e0]
  refine ⟨?_, ?_, ?_, ?_⟩ <;> omega

/-- **C3, amended.** For every quadruple of 16-bit values, packing them
per §4.3 (modelled from the spec; the code has no packing direction) and
unpacking with `From<u64> for Version` returns the same components. -/
theorem version_unpack_pack (a b c d : Nat)
    (ha : a < 2 ^ 16) (hb : b < 2 ^ 16) (hc : c < 2 ^ 16) (hd : d < 2 ^ 16) :
    Version.fromU64 (Version.pack a b c d) = ⟨a, b, c, d⟩ := by
  have h := fromU64_of_bytes (a % 256) (a / 256 % 256) (b % 256) (b / 256 % 256)
    (c % 256) (c / 256 % 256) (d % 256) (d / 256 % 256)
    (by omega) (by omega) (by omega) (by omega)
    (by omega) (by omega) (by omega) (by omega)
  have hp : Version.pack a b c d =
      a % 256 * 2 ^ 56 + a / 256 % 256 * 2 ^ 48 + b % 256 * 2 ^ 40 +
      b / 256 % 256 * 2 ^ 32 + c % 256 * 2 ^ 24 + c / 256 % 256 * 2 ^ 16 +
      d % 256 * 2 ^ 8 + d / 256 % 256 := rfl
  rw [hp, h]
  simp only [Version.mk.injEq]
  refine ⟨?_, ?_, ?_, ?_⟩ <;> omega

/-- Witness for C3 at the quadruple `(1, 1, 1, 1)`. -/
theorem version_unpack_pack_witness :
    1 < 2 ^ 16 ∧ Version.fromU64 (Version.pack 1 1 1 1) = ⟨1, 1, 1, 1⟩ :=
  ⟨by norm_num, version_unpack_pack 1 1 1 1 (by norm_num) (by norm_num)
    (by norm_num) (by norm_num)⟩

/-- **C4.** The envelope decode is exactly the four-step pipeline of
§4.1: strip line breaks, drop the (unvalidated) first character,
base64-decode with the standard alphabet and padding (`FormatError` on
invalid alphabet or padding), inflate (`FormatError` on failure), and
return the inflated text as the decoded JSON text. The last three
conjuncts exercise the pipeline concretely: an invalid-alphabet input,
an invalid-padding input, and a well-formed input whose inflated text is
returned verbatim. -/
theorem envelope_decode_pipeline :
    (∀ (inflate : List Nat → Option String) (s : String),
        decode_bp inflate s = envelopeDecodeSpec inflate s) ∧
    (∀ inflate, decode_bp inflate "0AB!C" = .error (.formatError "invalid base64")) ∧
    (∀ inflate, decode_bp inflate "0ABC" = .error (.formatError "invalid base64")) ∧
    decode_bp (fun bytes => if bytes = [65, 66, 67, 68] then some "inflated text" else none)
      "0QUJD\nRA==" = .ok "inflated text" :=
  ⟨fun _ _ => rfl, fun _ => rfl, fun _ => rfl, rfl⟩

/-- **C5.** Evaluating the code on a wait condition that carries a
circuit-condition payload: the parser discards the payload entirely
(`#[serde(skip)]` forces the field to its default, `None`, and
`CircuitCondition` is an empty struct — no bag of named values), and
re-encoding the parsed value emits no `condition` key at all, so the
payload is dropped rather than preserved. -/
theorem condition_payload_dropped :
    parseWaitCondition (.obj
        [("type", .str "circuit"), ("compare_type", .str "and"),
         ("condition", .obj
            [("first_signal", .obj [("name", .str "signal-A"), ("type", .str "virtual")]),
             ("constant", .num 100), ("comparator", .str "<")])])
      = .ok ⟨.circuit, .and, none, none⟩ ∧
    Json.objLookup
      (renderWaitCondition ⟨.circuit, .and, none, none⟩) "condition" = none :=
  ⟨rfl, rfl⟩

/-- **C6.** Evaluating the code on an entity object that omits the
prototype-specific fields: parsing FAILS (with the schema error for the
first missing required field, `items`) instead of succeeding with the
fields absent — `items`, `recipe`, `bar`, `inventory`,
`infinity_settings`, `type`, `filter_mode`, `drop_position`,
`pickup_position`, `request_from_buffers`, `parameters`,
`alert_parameters`, `auto_launch`, `variation`, `color` and `station`
are all required by the derived `Deserialize`. -/
theorem entity_missing_prototype_fields :
    parseEntity (.obj
        [("entity_number", .num 1), ("name", .str "transport-belt"),
         ("position", .obj [("x", .num 0), ("y", .num 0)])])
      = .error (.schemaError "missing field items") := rfl

/-- **C7, counterexample.** On a root object with neither key, the code
does fail with the `DataError`, but its message — `"given data is not a
blueprint or blueprint book"` — does not contain the expected key string
`"blueprint_book"` (the second document kind is written with a space,
not an underscore), so the message does not name the two expected keys
as the claim states. -/
theorem root_dispatch_message_lacks_key :
    parseDocument (.obj [("signals", .null)]) =
      .error (.dataError "given data is not a blueprint or blueprint book") ∧
    strHasSub "given data is not a blueprint or blueprint book" "blueprint_book"
      = false :=
  ⟨rfl, rfl⟩

/-- **C7, amended.** A JSON root object containing neither the key
`"blueprint"` nor `"blueprint_book"` fails with a `DataError` — an error
distinct from every `SchemaError` — whose message names the two document
kinds (`"blueprint"` and `"blueprint book"`, the latter without the
underscore of the wire key); a root with the `"blueprint"` key is parsed
as a `Blueprint`, and a root with only the `"blueprint_book"` key as a
`BlueprintBook`. -/
theorem root_dispatch :
    (∀ kvs, jlookup kvs "blueprint" = none → jlookup kvs "blueprint_book" = none →
        parseDocument (.obj kvs) =
          .error (.dataError "given data is not a blueprint or blueprint book")) ∧
    (∀ m m', DecodeError.dataError m ≠ DecodeError.schemaError m') ∧
    strHasSub "given data is not a blueprint or blueprint book" "blueprint" = true ∧
    strHasSub "given data is not a blueprint or blueprint book" "blueprint book" = true ∧
    (∀ kvs inner, jlookup kvs "blueprint" = some inner →
        parseDocument (.obj kvs) = Document.blueprint <$> parseBlueprint inner) ∧
    (∀ kvs inner, jlookup kvs "blueprint" = none →
        jlookup kvs "blueprint_book" = some inner →
        parseDocument (.obj kvs) = Document.book <$> parseBlueprintBook inner) := by
  refine ⟨?_, ?_, rfl, rfl, ?_, ?_⟩
  · intro kvs h1 h2
    simp only [parseDocument, h1, h2]
  · intro m m' h
    exact DecodeError.noConfusion h
  · intro kvs inner h1
    simp only [parseDocument, h1]
  · intro kvs inner h1 h2
    simp only [parseDocument, h1, h2]

/-- Witness for C7 at concrete roots exercising each hypothesis. -/
theorem root_dispatch_witness :
    parseDocument (.obj [("tiles", .arr [])]) =
      .error (.dataError "given data is not a blueprint or blueprint book") ∧
    parseDocument (.obj [("blueprint", .bool true)]) =
      Document.blueprint <$> parseBlueprint (.bool true) ∧
    parseDocument (.obj [("blueprint_book", .bool true)]) =
      Document.book <$> parseBlueprintBook (.bool true) :=
  ⟨root_dispatch.1 [("tiles", .arr [])] rfl rfl,
   root_dispatch.2.2.2.2.1 [("blueprint", .bool true)] (.bool true) rfl,
   root_dispatch.2.2.2.2.2 [("blueprint_book", .bool true)] (.bool true) rfl rfl⟩

/-- A concrete wired-up `Connection` used to exercise the positive
halves of the connector claims. -/
def sampleConnection : Connection :=
  ⟨⟨[⟨2, .electricPole⟩], []⟩, ⟨[], []⟩⟩

/-- **C8.** A connector map entry keyed by the literal string `"0"`
makes parsing fail with the nonzero-usize `SchemaError` (immediately
when it is the first entry, and with some error wherever it occurs),
while positive-integer string keys map to parsed `Connection` values. -/
theorem connector_map_key_zero :
    (∀ j rest, parseConnectionWrapper (.obj (("0", j) :: rest)) =
        .error (.schemaError "invalid value: 0, expected a nonzero usize")) ∧
    (∀ kvs, "0" ∈ kvs.map Prod.fst →
        ∃ e, parseConnectionWrapper (.obj kvs) = .error e) ∧
    parseConnectionWrapper (.obj [("1", renderConnection sampleConnection)]) =
      .ok [(1, sampleConnection)] := by
  refine ⟨fun j rest => rfl, ?_, rfl⟩
  intro kvs h
  induction kvs with
  | nil => simp at h
  | cons kv rest ih =>
      obtain ⟨k, v⟩ := kv
      simp only [List.map_cons, List.mem_cons] at h
      rcases h with h | h
      · subst h
        exact ⟨_, rfl⟩
      · rcases hf : parseMapKeyNonZeroUsize k with e | key
        · exact ⟨e, by simp only [parseConnectionWrapper, parseConnEntries, hf]; rfl⟩
        · rcases hc : parseConnection v with e | conn
          · exact ⟨e, by simp only [parseConnectionWrapper, parseConnEntries, hf, hc]; rfl⟩
          · obtain ⟨e, he⟩ := ih h
            have he' : parseConnEntries rest = .error e := he
            exact ⟨e, by
              simp only [parseConnectionWrapper, parseConnEntries, hf, hc, he']; rfl⟩

/-- Witness for C8: a map whose second entry is keyed `"0"` fails. -/
theorem connector_map_key_zero_witness :
    "0" ∈ ([("2", Json.null), ("0", Json.null)].map Prod.fst) ∧
    ∃ e, parseConnectionWrapper (.obj [("2", Json.null), ("0", Json.null)]) =
      .error e :=
  ⟨by decide, connector_map_key_zero.2.1 [("2", Json.null), ("0", Json.null)]
    (by decide)⟩

/-- **C10.** `Connection` requires both wire keys `"1"` and `"2"`, and
`ConnectionPoint` requires both `"red"` and `"green"`: omitting any of
them fails with a `SchemaError` (the concrete missing-field error when
the omission is hit first); a fully-populated connection parses. -/
theorem connection_requires_both_points :
    (∀ kvs, jlookup kvs "1" = none →
        parseConnection (.obj kvs) = .error (.schemaError "missing field 1")) ∧
    (∀ kvs, jlookup kvs "2" = none →
        ∃ e, parseConnection (.obj kvs) = .error e) ∧
    (∀ kvs, jlookup kvs "red" = none →
        parseConnectionPoint (.obj kvs) = .error (.schemaError "missing field red")) ∧
    (∀ kvs, jlookup kvs "green" = none →
        ∃ e, parseConnectionPoint (.obj kvs) = .error e) ∧
    parseConnection (renderConnection sampleConnection) = .ok sampleConnection := by
  refine ⟨?_, ?_, ?_, ?_, rfl⟩
  · intro kvs h
    simp only [parseConnection, parseField, h]
    rfl
  · intro kvs h
    simp only [parseConnection]
    apply bindErrorOf
    intro first
    have h2 : parseField kvs "2" parseConnectionPoint =
        .error (.schemaError "missing field 2") := by
      simp only [parseField, h]
      rfl
    rw [h2]
    exact ⟨_, rfl⟩
  · intro kvs h
    simp only [parseConnectionPoint, parseField, h]
    rfl
  · intro kvs h
    simp only [parseConnectionPoint]
    apply bindErrorOf
    intro red
    have h2 : parseField kvs "green" (asVec parseConnectionData) =
        .error (.schemaError "missing field green") := by
      simp only [parseField, h]
      rfl
    rw [h2]
    exact ⟨_, rfl⟩

/-- Witness for C10: concrete objects lacking `"1"`, `"2"`, `"red"`,
`"green"` respectively. -/
theorem connection_requires_both_points_witness :
    parseConnection (.obj [("2", Json.null)]) =
      .error (.schemaError "missing field 1") ∧
    (∃ e, parseConnection (.obj [("1", renderConnectionPoint ⟨[], []⟩)]) = .error e) ∧
    parseConnectionPoint (.obj [("green", Json.arr [])]) =
      .error (.schemaError "missing field red") ∧
    (∃ e, parseConnectionPoint (.obj [("red", Json.arr [])]) = .error e) :=
  ⟨connection_requires_both_points.1 [("2", Json.null)] rfl,
   connection_requires_both_points.2.1 [("1", renderConnectionPoint ⟨[], []⟩)] rfl,
   connection_requires_both_points.2.2.1 [("green", Json.arr [])] rfl,
   connection_requires_both_points.2.2.2.1 [("red", Json.arr [])] rfl⟩

/-- A concrete entity with every optional field absent. -/
def sampleEntity : Entity where
  entity_number := 1
  name := "fast-splitter"
  position := ⟨0, 0⟩
  direction := none
  orientation := none
  connections := none
  neighbors := none
  items := []
  recipe := ""
  bar := 0
  inventory := ⟨[], 0⟩
  infinity_settings := ⟨false, none⟩
  io_type := .input
  input_priority := none
  output_priority := none
  filter := none
  filters := none
  filter_mode := .whitelist
  override_stack_size := none
  drop_position := ⟨0, 0⟩
  pickup_position := ⟨0, 0⟩
  request_filters := none
  request_from_buffers := false
  parameters := ⟨1, false, false⟩
  alert_parameters := ⟨false, false, ⟨"signal-A", .virtual⟩, ""⟩
  auto_launch := false
  variation := 0
  color := ⟨1, 1, 1, 1⟩
  station := ""

/-- **C9, counterexample.** Serializing an entity whose `direction` is
absent does NOT omit the field: the derived `Serialize` (with no
`skip_serializing_if`) emits `"direction": null`. -/
theorem absent_direction_rendered_as_null :
    Json.objLookup (renderEntity sampleEntity) "direction" = some .null := rfl

/-- If a parse of the entity field list succeeded, every optional field
absent from the wire object came out as `none` (no placeholder value is
synthesized). Stated for all ten `Option` fields at once. -/
theorem parseEntity_absent_optionals {kvs : List (String × Json)} {e : Entity}
    (hok : parseEntity (.obj kvs) = .ok e) :
    (jlookup kvs "direction" = none → e.direction = none) ∧
    (jlookup kvs "orientation" = none → e.orientation = none) ∧
    (jlookup kvs "connections" = none → e.connections = none) ∧
    (jlookup kvs "neighbours" = none → e.neighbors = none) ∧
    (jlookup kvs "input_priority" = none → e.input_priority = none) ∧
    (jlookup kvs "output_priority" = none → e.output_priority = none) ∧
    (jlookup kvs "filter" = none → e.filter = none) ∧
    (jlookup kvs "filters" = none → e.filters = none) ∧
    (jlookup kvs "override_stack_size" = none → e.override_stack_size = none) ∧
    (jlookup kvs "request_filters" = none → e.request_filters = none) := by
  simp only [parseEntity] at hok
  obtain ⟨x1, h1, hok⟩ := bindEqOk hok
  obtain ⟨x2, h2, hok⟩ := bindEqOk hok
  obtain ⟨x3, h3, hok⟩ := bindEqOk hok
  obtain ⟨x4, h4, hok⟩ := bindEqOk hok
  obtain ⟨x5, h5, hok⟩ := bindEqOk hok
  obtain ⟨x6, h6, hok⟩ := bindEqOk hok
  obtain ⟨x7, h7, hok⟩ := bindEqOk hok
  obtain ⟨x8, h8, hok⟩ := bindEqOk hok
  obtain ⟨x9, h9, hok⟩ := bindEqOk hok
  obtain ⟨x10, h10, hok⟩ := bindEqOk hok
  obtain ⟨x11, h11, hok⟩ := bindEqOk hok
  obtain ⟨x12, h12, hok⟩ := bindEqOk hok
  obtain ⟨x13, h13, hok⟩ := bindEqOk hok
  obtain ⟨x14, h14, hok⟩ := bindEqOk hok
  obtain ⟨x15, h15, hok⟩ := bindEqOk hok
  obtain ⟨x16, h16, hok⟩ := bindEqOk hok
  obtain ⟨x17, h17, hok⟩ := bindEqOk hok
  obtain ⟨x18, h18, hok⟩ := bindEqOk hok
  obtain ⟨x19, h19, hok⟩ := bindEqOk hok
  obtain ⟨x20, h20, hok⟩ := bindEqOk hok
  obtain ⟨x21, h21, hok⟩ := bindEqOk hok
  obtain ⟨x22, h22, hok⟩ := bindEqOk hok
  obtain ⟨x23, h23, hok⟩ := bindEqOk hok
  obtain ⟨x24, h24, hok⟩ := bindEqOk hok
  obtain ⟨x25, h25, hok⟩ := bindEqOk hok
  obtain ⟨x26, h26, hok⟩ := bindEqOk hok
  obtain ⟨x27, h27, hok⟩ := bindEqOk hok
  obtain ⟨x28, h28, hok⟩ := bindEqOk hok
  obtain ⟨x29, h29, hok⟩ := bindEqOk hok
  injection hok with hok
  subst hok
  refine ⟨?_, ?_, ?_, ?_, ?_, ?_, ?_, ?_, ?_, ?_⟩ <;> intro hnone
  · simp only [parseOptField, hnone] at h4
    injection h4 with h4
    exact h4.symm
  · simp only [parseOptField, hnone] at h5
    injection h5 with h5
    exact h5.symm
  · simp only [parseOptField, hnone] at h6
    injection h6 with h6
    exact h6.symm
  · simp only [parseOptField, hnone] at h7
    injection h7 with h7
    exact h7.symm
  · simp only [parseOptField, hnone] at h14
    injection h14 with h14
    exact h14.symm
  · simp only [parseOptField, hnone] at h15
    injection h15 with h15
    exact h15.symm
  · simp only [parseOptField, hnone] at h16
    injection h16 with h16
    exact h16.symm
  · simp only [parseOptField, hnone] at h17
    injection h17 with h17
    exact h17.symm
  · simp only [parseOptField, hnone] at h19
    injection h19 with h19
    exact h19.symm
  · simp only [parseOptField, hnone] at h22
    injection h22 with h22
    exact h22.symm

/-- **C9, amended.** Each of the ten optional entity fields, when
absent, is serialized as an explicit JSON `null` (the derived
`Serialize` has no `skip_serializing_if`), NOT omitted; in the parse
direction, a wire object lacking any of those fields yields `None` for
it — no placeholder value is synthesized. -/
theorem optional_fields_rendered_null :
    (∀ e : Entity,
      (e.direction = none →
        Json.objLookup (renderEntity e) "direction" = some .null) ∧
      (e.orientation = none →
        Json.objLookup (renderEntity e) "orientation" = some .null) ∧
      (e.connections = none →
        Json.objLookup (renderEntity e) "connections" = some .null) ∧
      (e.neighbors = none →
        Json.objLookup (renderEntity e) "neighbours" = some .null) ∧
      (e.input_priority = none →
        Json.objLookup (renderEntity e) "input_priority" = some .null) ∧
      (e.output_priority = none →
        Json.objLookup (renderEntity e) "output_priority" = some .null) ∧
      (e.filter = none →
        Json.objLookup (renderEntity e) "filter" = some .null) ∧
      (e.filters = none →
        Json.objLookup (renderEntity e) "filters" = some .null) ∧
      (e.override_stack_size = none →
        Json.objLookup (renderEntity e) "override_stack_size" = some .null) ∧
      (e.request_filters = none →
        Json.objLookup (renderEntity e) "request_filters" = some .null)) ∧
    (∀ kvs e, parseEntity (.obj kvs) = .ok e →
      (jlookup kvs "direction" = none → e.direction = none) ∧
      (jlookup kvs "orientation" = none → e.orientation = none) ∧
      (jlookup kvs "connections" = none → e.connections = none) ∧
      (jlookup kvs "neighbours" = none → e.neighbors = none) ∧
      (jlookup kvs "input_priority" = none → e.input_priority = none) ∧
      (jlookup kvs "output_priority" = none → e.output_priority = none) ∧
      (jlookup kvs "filter" = none → e.filter = none) ∧
      (jlookup kvs "filters" = none → e.filters = none) ∧
      (jlookup kvs "override_stack_size" = none → e.override_stack_size = none) ∧
      (jlookup kvs "request_filters" = none → e.request_filters = none)) := by
  refine ⟨?_, ?_⟩
  · intro e
    refine ⟨?_, ?_, ?_, ?_, ?_, ?_, ?_, ?_, ?_, ?_⟩ <;> intro h <;>
      simp [renderEntity, Json.objLookup, jlookup, h, renderOpt]
  · intro kvs e hok
    exact parseEntity_absent_optionals hok

/-- A minimal-but-complete wire object for `sampleEntity`: every
required field present, every optional field absent. -/
def sampleEntityWireMin : List (String × Json) :=
  [("entity_number", .num 1), ("name", .str "fast-splitter"),
   ("position", .obj [("x", .num 0), ("y", .num 0)]),
   ("items", .obj []), ("recipe", .str ""), ("bar", .num 0),
   ("inventory", .obj [("filters", .arr []), ("bar", .num 0)]),
   ("infinity_settings", .obj [("remove_unfiltered_items", .bool false)]),
   ("type", .str "input"), ("filter_mode", .str "whitelist"),
   ("drop_position", .obj [("x", .num 0), ("y", .num 0)]),
   ("pickup_position", .obj [("x", .num 0), ("y", .num 0)]),
   ("request_from_buffers", .bool false),
   ("parameters", .obj [("playback_volume", .num 1),
      ("playback_globally", .bool false), ("allow_polyphony", .bool false)]),
   ("alert_parameters", .obj [("show_alert", .bool false),
      ("show_on_map", .bool false),
      ("icon_signal_id", .obj [("name", .str "signal-A"), ("type", .str "virtual")]),
      ("alert_message", .str "")]),
   ("auto_launch", .bool false), ("variation", .num 0),
   ("color", .obj [("r", .num 1), ("g", .num 1), ("b", .num 1), ("a", .num 1)]),
   ("station", .str "")]

/-- Witness for C9: the amended claim applied to the concrete sample
entity and a concrete minimal-but-complete wire object. -/
theorem optional_fields_rendered_null_witness :
    sampleEntity.direction = none ∧
    Json.objLookup (renderEntity sampleEntity) "direction" = some .null ∧
    Json.objLookup (renderEntity sampleEntity) "orientation" = some .null ∧
    Json.objLookup (renderEntity sampleEntity) "connections" = some .null ∧
    Json.objLookup (renderEntity sampleEntity) "override_stack_size" = some .null ∧
    parseEntity (.obj sampleEntityWireMin) = .ok sampleEntity ∧
    sampleEntity.override_stack_size = none := by
  refine ⟨rfl,
    (optional_fields_rendered_null.1 sampleEntity).1 rfl,
    (optional_fields_rendered_null.1 sampleEntity).2.1 rfl,
    (optional_fields_rendered_null.1 sampleEntity).2.2.1 rfl,
    (optional_fields_rendered_null.1 sampleEntity).2.2.2.2.2.2.2.2.1 rfl,
    rfl, ?_⟩
  exact (optional_fields_rendered_null.2 sampleEntityWireMin sampleEntity
    rfl).2.2.2.2.2.2.2.2.1 rfl

/-- Every rendered `Blueprint` fails to parse back: the `version` field
(the last one bound) is rendered as a four-field object but parsed as a
`u64`. -/
theorem parseBlueprint_renderBlueprint_fails (bp : Blueprint) :
    ∃ e, parseBlueprint (renderBlueprint bp) = .error e := by
  simp only [renderBlueprint, parseBlueprint]
  apply bindErrorOf; intro item
  apply bindErrorOf; intro label
  apply bindErrorOf; intro label_color
  apply bindErrorOf; intro entities
  apply bindErrorOf; intro tiles
  apply bindErrorOf; intro icons
  apply bindErrorOf; intro schedules
  exact ⟨_, rfl⟩

/-- Every rendered `BlueprintBook` fails to parse back, for the same
reason: its own `version` field. -/
theorem parseBlueprintBook_renderBlueprintBook_fails (bb : BlueprintBook) :
    ∃ e, parseBlueprintBook (renderBlueprintBook bb) = .error e := by
  simp only [renderBlueprintBook, parseBlueprintBook]
  apply bindErrorOf; intro item
  apply bindErrorOf; intro label
  apply bindErrorOf; intro label_color
  apply bindErrorOf; intro blueprints
  apply bindErrorOf; intro active_index
  exact ⟨_, rfl⟩

/-- **C1.** The round-trip `parse(render(D)) == D` FAILS for every
document, blueprint or book alike: `Version` is deserialized
`#[serde(from = "u64")]` from a bare integer, but its derived
`Serialize` (no `into = "u64"`) emits a four-field object, so parsing
any rendered document always errors instead of returning `D`. -/
theorem document_roundtrip_fails (d : Document) :
    ∃ e, parseDocument (renderDocument d) = .error e := by
  cases d with
  | blueprint bp =>
      obtain ⟨e, he⟩ := parseBlueprint_renderBlueprint_fails bp
      refine ⟨e, ?_⟩
      show Document.blueprint <$> parseBlueprint (renderBlueprint bp) = .error e
      rw [he]
      rfl
  | book bb =>
      obtain ⟨e, he⟩ := parseBlueprintBook_renderBlueprintBook_fails bb
      refine ⟨e, ?_⟩
      show Document.book <$> parseBlueprintBook (renderBlueprintBook bb) = .error e
      rw [he]
      rfl

end FactorioBp
